import Mathlib

/-!
Shallow embedding of the Lunar Lander prototypes (MoonLaner.py and
lundarLanderBeta.py).  Python integers become `Int`; the rotation field is a
Python float that only ever holds small integer values (0.0, increments of 5,
clamp at 45), so float arithmetic on it is exact and it is embedded as `Int`.
Tuples `(x, y)` become `Vec2`.  The arcade framework (physics engine, sprites,
rendering) is external: the embedding records only the force vector each tick
emits to `physics_engine.apply_force`, and models the state transitions of the
repository's own objects (Lander, InputService) exactly as the source writes
them.
-/

namespace LunarLander

/-- A Python pair `(x, y)` used as a 2D force/thrust vector. -/
structure Vec2 where
  x : Int
  y : Int
deriving DecidableEq

/-- `PLAYER_MOVE_FORCE = 65` (both variants). -/
def PLAYER_MOVE_FORCE : Int := 65

/-- `arcade.key.LEFT`. -/
def KEY_LEFT : Nat := 65361

/-- `arcade.key.UP`. -/
def KEY_UP : Nat := 65362

/-- `arcade.key.RIGHT`. -/
def KEY_RIGHT : Nat := 65363

namespace MoonLaner

/-- `Lander.__init__` fields of MoonLaner.py (`_thrust`, `_rotation`, `_fuel`,
`_has_crashed`). -/
structure Lander where
  thrust : Vec2
  rotation : Int
  fuel : Int
  hasCrashed : Bool
deriving DecidableEq

/-- `Lander.__init__`: `(0,0)`, `0.0`, `1000`, `False`. -/
def Lander.init : Lander := ⟨⟨0, 0⟩, 0, 1000, false⟩

/-- `Lander.get_fuel`. -/
def Lander.get_fuel (l : Lander) : Int := l.fuel

/-- `Lander.get_rotation`. -/
def Lander.get_rotation (l : Lander) : Int := l.rotation

/-- `Lander.get_thrust` (MoonLaner variant, a pure read):
`if self._fuel == 0: return (0, 0) else: return self._thrust`. -/
def Lander.get_thrust (l : Lander) : Vec2 :=
  if l.fuel = 0 then ⟨0, 0⟩ else l.thrust

/-- `Lander.set_rotation`: `self._rotation += rotation;
if self._rotation > 45: self._rotation = 45`. -/
def Lander.set_rotation (l : Lander) (rotation : Int) : Lander :=
  let r := l.rotation + rotation
  { l with rotation := if r > 45 then 45 else r }

/-- `Lander.set_thrust`: adds 5 to `_rotation` when the horizontal component
is nonzero (either sign), with no clamp, then stores the thrust. -/
def Lander.set_thrust (l : Lander) (thrust : Vec2) : Lander :=
  if thrust.x > 0 then { l with rotation := l.rotation + 5, thrust := thrust }
  else if thrust.x < 0 then { l with rotation := l.rotation + 5, thrust := thrust }
  else { l with thrust := thrust }

/-- `InputService.__init__`: the three held-direction flags, all `False`. -/
structure InputService where
  right : Bool
  left : Bool
  up : Bool
deriving DecidableEq

/-- Initial input state. -/
def InputService.init : InputService := ⟨false, false, false⟩

/-- `InputService.key_input`: elif chain on RIGHT, LEFT, UP; other keys fall
through with no effect. -/
def InputService.key_input (s : InputService) (key : Nat) : InputService :=
  if key = KEY_RIGHT then { s with right := true }
  else if key = KEY_LEFT then { s with left := true }
  else if key = KEY_UP then { s with up := true }
  else s

/-- `InputService.key_release`: elif chain on RIGHT, LEFT, UP; other keys fall
through with no effect. -/
def InputService.key_release (s : InputService) (key : Nat) : InputService :=
  if key = KEY_RIGHT then { s with right := false }
  else if key = KEY_LEFT then { s with left := false }
  else if key = KEY_UP then { s with up := false }
  else s

/-- The window state the repository's own code mutates: the input flags and
the lander.  Sprites and the physics engine are external. -/
structure GameState where
  input : InputService
  lander : Lander
deriving DecidableEq

/-- `GameWindow.__init__`: fresh `Lander()` and `InputService()`. -/
def GameState.init : GameState := ⟨InputService.init, Lander.init⟩

/-- `GameWindow.on_update`: the elif chain over (right, left, up), each branch
guarded by `_fuel > 0`; a taken branch emits its force to
`physics_engine.apply_force` and decrements `_fuel` by 1.  Returns the force
emitted this tick (`(0,0)` when no branch fires and no force is applied)
together with the updated state.  Neither `set_thrust` nor `set_rotation` is
called anywhere in this handler. -/
def on_update (s : GameState) : Vec2 × GameState :=
  if s.input.right ∧ 0 < s.lander.fuel then
    (⟨PLAYER_MOVE_FORCE, 0⟩,
      { s with lander := { s.lander with fuel := s.lander.fuel - 1 } })
  else if s.input.left ∧ 0 < s.lander.fuel then
    (⟨-PLAYER_MOVE_FORCE, 0⟩,
      { s with lander := { s.lander with fuel := s.lander.fuel - 1 } })
  else if s.input.up ∧ 0 < s.lander.fuel then
    (⟨0, PLAYER_MOVE_FORCE⟩,
      { s with lander := { s.lander with fuel := s.lander.fuel - 1 } })
  else (⟨0, 0⟩, s)

/-- The events the arcade framework delivers to GameWindow: key press, key
release, update tick, draw.  `on_draw` in this variant only reads the lander
through the pure `get_thrust`/`get_fuel` accessors, so it leaves the state
unchanged. -/
inductive Event where
  | keyPress (key : Nat)
  | keyRelease (key : Nat)
  | tick
  | draw
deriving DecidableEq

/-- One framework callback applied to the window state. -/
def stepEvent (s : GameState) (e : Event) : GameState :=
  match e with
  | Event.keyPress k => { s with input := s.input.key_input k }
  | Event.keyRelease k => { s with input := s.input.key_release k }
  | Event.tick => (on_update s).2
  | Event.draw => s

/-- A whole session: folding the delivered events over a state. -/
def run (s : GameState) (es : List Event) : GameState := es.foldl stepEvent s

/-- One raw key event as GameWindow dispatches it: `true` is a key-down
(routed to `key_input`), `false` a key-up (routed to `key_release`), paired
with the key code. -/
def applyKeyEvent (s : InputService) (e : Bool × Nat) : InputService :=
  if e.1 then s.key_input e.2 else s.key_release e.2

/-- The net press state of a key code after a sequence of raw key events:
true iff the last event carrying this key code was a key-down (false when the
code never occurs). -/
def netPressed (key : Nat) (es : List (Bool × Nat)) : Bool :=
  es.foldl (fun acc e => if e.2 = key then e.1 else acc) false

/-- The held-direction flag the InputService stores for a given key code
(false for unrecognized codes, which have no flag). -/
def flagOf (s : InputService) (k : Nat) : Bool :=
  if k = KEY_RIGHT then s.right
  else if k = KEY_LEFT then s.left
  else if k = KEY_UP then s.up
  else false

end MoonLaner

namespace Beta

/-- `Lander.__init__` fields of lundarLanderBeta.py. -/
structure Lander where
  thrust : Vec2
  rotation : Int
  fuel : Int
  hasCrashed : Bool
deriving DecidableEq

/-- `Lander.__init__`: `(0,0)`, `0.0`, `2000`, `False`. -/
def Lander.init : Lander := ⟨⟨0, 0⟩, 0, 2000, false⟩

/-- `Lander.get_thrust` (Beta variant, side-effecting): when `_fuel == 0`
returns `(0,0)` and changes nothing; otherwise decrements `_fuel` by 10 and
returns the stored thrust.  Returns the value together with the mutated
lander. -/
def Lander.get_thrust (l : Lander) : Vec2 × Lander :=
  if l.fuel = 0 then (⟨0, 0⟩, l)
  else (l.thrust, { l with fuel := l.fuel - 10 })

/-- `Lander.set_rotation` (identical text to the MoonLaner variant). -/
def Lander.set_rotation (l : Lander) (rotation : Int) : Lander :=
  let r := l.rotation + rotation
  { l with rotation := if r > 45 then 45 else r }

/-- `Lander.set_thrust` (identical text to the MoonLaner variant): adds 5 to
`_rotation` when the horizontal component is nonzero, with no clamp. -/
def Lander.set_thrust (l : Lander) (thrust : Vec2) : Lander :=
  if thrust.x > 0 then { l with rotation := l.rotation + 5, thrust := thrust }
  else if thrust.x < 0 then { l with rotation := l.rotation + 5, thrust := thrust }
  else { l with thrust := thrust }

/-- `InputService.apply_input`: classifies the key, defaulting to `(0, 0)` for
any unrecognized key, and unconditionally calls `lander.set_thrust(force)`. -/
def apply_input (key : Nat) (l : Lander) : Lander :=
  l.set_thrust
    (if key = KEY_LEFT then ⟨-PLAYER_MOVE_FORCE, 0⟩
     else if key = KEY_RIGHT then ⟨PLAYER_MOVE_FORCE, 0⟩
     else if key = KEY_UP then ⟨0, PLAYER_MOVE_FORCE⟩
     else ⟨0, 0⟩)

/-- `GameWindow.on_update` (Beta): `thrust = self.lander.get_thrust()` then
forwards it to the physics engine.  Returns the emitted vector and the
updated lander. -/
def on_update (l : Lander) : Vec2 × Lander := l.get_thrust

/-- `OutputService.draw_lander` (Beta): evaluates `lander.get_thrust()[0]`
once for the `< 0` test and, when that test fails, a second time for the
`> 0` test — each evaluation runs the side-effecting getter. -/
def draw_lander (l : Lander) : Lander :=
  if (l.get_thrust).1.x < 0 then (l.get_thrust).2
  else (((l.get_thrust).2).get_thrust).2

/-- The events delivered to the Beta GameWindow: `on_key_press` (which calls
`apply_input`; there is no key-release handler), `on_update`, `on_draw`
(whose only state effect on repository objects is via `draw_lander`). -/
inductive BEvent where
  | key (k : Nat)
  | tick
  | draw
deriving DecidableEq

/-- One framework callback applied to the Beta lander. -/
def bstep (l : Lander) (e : BEvent) : Lander :=
  match e with
  | BEvent.key k => apply_input k l
  | BEvent.tick => (on_update l).2
  | BEvent.draw => draw_lander l

/-- A whole Beta session. -/
def brun (l : Lander) (es : List BEvent) : Lander := es.foldl bstep l

/-- `n` successive calls of the side-effecting `get_thrust`, keeping only the
lander (the drain pattern of C9). -/
def drainN (l : Lander) : Nat → Lander
  | 0 => l
  | n + 1 => ((drainN l n).get_thrust).2

end Beta

/-! ## Helper lemmas: MoonLaner -/

namespace MoonLaner

/-- `on_update` never touches the input flags, the stored thrust, rotation or
the crash flag; fuel either stays or drops by 1 under a positive-fuel guard. -/
lemma on_update_shape (s : GameState) :
    (on_update s).2.input = s.input ∧
    (on_update s).2.lander.thrust = s.lander.thrust ∧
    (on_update s).2.lander.rotation = s.lander.rotation ∧
    (on_update s).2.lander.hasCrashed = s.lander.hasCrashed ∧
    ((on_update s).2.lander.fuel = s.lander.fuel ∨
      (0 < s.lander.fuel ∧ (on_update s).2.lander.fuel = s.lander.fuel - 1)) := by
  unfold on_update
  split_ifs with h1 h2 h3
  · exact ⟨rfl, rfl, rfl, rfl, Or.inr ⟨h1.2, rfl⟩⟩
  · exact ⟨rfl, rfl, rfl, rfl, Or.inr ⟨h2.2, rfl⟩⟩
  · exact ⟨rfl, rfl, rfl, rfl, Or.inr ⟨h3.2, rfl⟩⟩
  · exact ⟨rfl, rfl, rfl, rfl, Or.inl rfl⟩

/-- Each tick either emits a nonzero force and burns exactly one fuel unit,
or emits `(0,0)` and leaves the whole state unchanged. -/
lemma on_update_cases (s : GameState) :
    ((on_update s).1 ≠ ⟨0, 0⟩ ∧ (on_update s).2.lander.fuel = s.lander.fuel - 1) ∨
    ((on_update s).1 = ⟨0, 0⟩ ∧ (on_update s).2 = s) := by
  unfold on_update
  split_ifs with h1 h2 h3
  · exact Or.inl ⟨by dsimp; decide, rfl⟩
  · exact Or.inl ⟨by dsimp; decide, rfl⟩
  · exact Or.inl ⟨by dsimp; decide, rfl⟩
  · exact Or.inr ⟨rfl, rfl⟩

/-- With no fuel, no branch of `on_update` fires: no force, no change. -/
lemma on_update_zero (s : GameState) (hz : s.lander.fuel = 0) :
    on_update s = (⟨0, 0⟩, s) := by
  unfold on_update
  split_ifs with h1 h2 h3
  · exact absurd h1.2 (by omega)
  · exact absurd h2.2 (by omega)
  · exact absurd h3.2 (by omega)
  · rfl

/-- Fuel never increases across a tick. -/
lemma on_update_fuel_le (s : GameState) :
    (on_update s).2.lander.fuel ≤ s.lander.fuel := by
  rcases on_update_cases s with ⟨-, hf⟩ | ⟨-, hs⟩
  · omega
  · rw [hs]

/-- Fuel never increases across any framework callback. -/
lemma stepEvent_fuel_le (s : GameState) (e : Event) :
    (stepEvent s e).lander.fuel ≤ s.lander.fuel := by
  cases e with
  | keyPress k => exact le_refl _
  | keyRelease k => exact le_refl _
  | tick => exact on_update_fuel_le s
  | draw => exact le_refl _

/-- Fuel never increases across any sequence of callbacks. -/
lemma run_fuel_le (s : GameState) (es : List Event) :
    (run s es).lander.fuel ≤ s.lander.fuel := by
  induction es generalizing s with
  | nil => exact le_refl _
  | cons e es ih => exact le_trans (ih (stepEvent s e)) (stepEvent_fuel_le s e)

/-- Nonnegative fuel is preserved by every callback. -/
lemma stepEvent_fuel_nonneg (s : GameState) (e : Event) (h : 0 ≤ s.lander.fuel) :
    0 ≤ (stepEvent s e).lander.fuel := by
  cases e with
  | keyPress k => exact h
  | keyRelease k => exact h
  | tick =>
    rcases (on_update_shape s).2.2.2.2 with hf | ⟨hp, hf⟩
    · show 0 ≤ (on_update s).2.lander.fuel
      omega
    · show 0 ≤ (on_update s).2.lander.fuel
      omega
  | draw => exact h

/-- Nonnegative fuel is preserved by every sequence of callbacks. -/
lemma run_fuel_nonneg (s : GameState) (es : List Event) (h : 0 ≤ s.lander.fuel) :
    0 ≤ (run s es).lander.fuel := by
  induction es generalizing s with
  | nil => exact h
  | cons e es ih => exact ih (stepEvent s e) (stepEvent_fuel_nonneg s e h)

/-- Exhausted fuel stays exhausted across every callback. -/
lemma stepEvent_fuel_zero (s : GameState) (e : Event) (hz : s.lander.fuel = 0) :
    (stepEvent s e).lander.fuel = 0 := by
  cases e with
  | keyPress k => exact hz
  | keyRelease k => exact hz
  | tick =>
    show (on_update s).2.lander.fuel = 0
    rw [on_update_zero s hz]
    exact hz
  | draw => exact hz

/-- Exhausted fuel stays exhausted across every sequence of callbacks. -/
lemma run_fuel_zero (s : GameState) (es : List Event) (hz : s.lander.fuel = 0) :
    (run s es).lander.fuel = 0 := by
  induction es generalizing s with
  | nil => exact hz
  | cons e es ih => exact ih (stepEvent s e) (stepEvent_fuel_zero s e hz)

/-- No callback ever writes the lander's rotation, crash flag or stored
thrust in this variant. -/
lemma stepEvent_lander_frame (s : GameState) (e : Event) :
    (stepEvent s e).lander.rotation = s.lander.rotation ∧
    (stepEvent s e).lander.hasCrashed = s.lander.hasCrashed ∧
    (stepEvent s e).lander.thrust = s.lander.thrust := by
  cases e with
  | keyPress k => exact ⟨rfl, rfl, rfl⟩
  | keyRelease k => exact ⟨rfl, rfl, rfl⟩
  | tick =>
    obtain ⟨-, ht, hr, hc, -⟩ := on_update_shape s
    exact ⟨hr, hc, ht⟩
  | draw => exact ⟨rfl, rfl, rfl⟩

/-- No sequence of callbacks ever writes rotation, crash flag or stored
thrust in this variant. -/
lemma run_lander_frame (s : GameState) (es : List Event) :
    (run s es).lander.rotation = s.lander.rotation ∧
    (run s es).lander.hasCrashed = s.lander.hasCrashed ∧
    (run s es).lander.thrust = s.lander.thrust := by
  induction es generalizing s with
  | nil => exact ⟨rfl, rfl, rfl⟩
  | cons e es ih =>
    obtain ⟨h1, h2, h3⟩ := ih (stepEvent s e)
    obtain ⟨g1, g2, g3⟩ := stepEvent_lander_frame s e
    exact ⟨h1.trans g1, h2.trans g2, h3.trans g3⟩

end MoonLaner

/-! ## Helper lemmas: InputService key handling -/

namespace MoonLaner

lemma key_input_right (s : InputService) (k : Nat) :
    (s.key_input k).right = if k = KEY_RIGHT then true else s.right := by
  unfold InputService.key_input
  split_ifs <;> simp_all [KEY_RIGHT, KEY_LEFT, KEY_UP]

lemma key_input_left (s : InputService) (k : Nat) :
    (s.key_input k).left = if k = KEY_LEFT then true else s.left := by
  unfold InputService.key_input
  split_ifs <;> simp_all [KEY_RIGHT, KEY_LEFT, KEY_UP]

lemma key_input_up (s : InputService) (k : Nat) :
    (s.key_input k).up = if k = KEY_UP then true else s.up := by
  unfold InputService.key_input
  split_ifs <;> simp_all [KEY_RIGHT, KEY_LEFT, KEY_UP]

lemma key_release_right (s : InputService) (k : Nat) :
    (s.key_release k).right = if k = KEY_RIGHT then false else s.right := by
  unfold InputService.key_release
  split_ifs <;> simp_all [KEY_RIGHT, KEY_LEFT, KEY_UP]

lemma key_release_left (s : InputService) (k : Nat) :
    (s.key_release k).left = if k = KEY_LEFT then false else s.left := by
  unfold InputService.key_release
  split_ifs <;> simp_all [KEY_RIGHT, KEY_LEFT, KEY_UP]

lemma key_release_up (s : InputService) (k : Nat) :
    (s.key_release k).up = if k = KEY_UP then false else s.up := by
  unfold InputService.key_release
  split_ifs <;> simp_all [KEY_RIGHT, KEY_LEFT, KEY_UP]

lemma applyKeyEvent_right (s : InputService) (e : Bool × Nat) :
    (applyKeyEvent s e).right = if e.2 = KEY_RIGHT then e.1 else s.right := by
  rcases e with ⟨b, k⟩
  cases b <;> simp [applyKeyEvent, key_input_right, key_release_right]

lemma applyKeyEvent_left (s : InputService) (e : Bool × Nat) :
    (applyKeyEvent s e).left = if e.2 = KEY_LEFT then e.1 else s.left := by
  rcases e with ⟨b, k⟩
  cases b <;> simp [applyKeyEvent, key_input_left, key_release_left]

lemma applyKeyEvent_up (s : InputService) (e : Bool × Nat) :
    (applyKeyEvent s e).up = if e.2 = KEY_UP then e.1 else s.up := by
  rcases e with ⟨b, k⟩
  cases b <;> simp [applyKeyEvent, key_input_up, key_release_up]

lemma foldlKeys_right (es : List (Bool × Nat)) (s : InputService) :
    (es.foldl applyKeyEvent s).right =
      es.foldl (fun acc e => if e.2 = KEY_RIGHT then e.1 else acc) s.right := by
  induction es generalizing s with
  | nil => rfl
  | cons e es ih =>
    rw [List.foldl_cons, List.foldl_cons, ih, applyKeyEvent_right]

lemma foldlKeys_left (es : List (Bool × Nat)) (s : InputService) :
    (es.foldl applyKeyEvent s).left =
      es.foldl (fun acc e => if e.2 = KEY_LEFT then e.1 else acc) s.left := by
  induction es generalizing s with
  | nil => rfl
  | cons e es ih =>
    rw [List.foldl_cons, List.foldl_cons, ih, applyKeyEvent_left]

lemma foldlKeys_up (es : List (Bool × Nat)) (s : InputService) :
    (es.foldl applyKeyEvent s).up =
      es.foldl (fun acc e => if e.2 = KEY_UP then e.1 else acc) s.up := by
  induction es generalizing s with
  | nil => rfl
  | cons e es ih =>
    rw [List.foldl_cons, List.foldl_cons, ih, applyKeyEvent_up]

lemma key_input_unrecognized (s : InputService) (k : Nat)
    (h1 : k ≠ KEY_RIGHT) (h2 : k ≠ KEY_LEFT) (h3 : k ≠ KEY_UP) :
    s.key_input k = s := by
  unfold InputService.key_input
  rw [if_neg h1, if_neg h2, if_neg h3]

lemma key_release_unrecognized (s : InputService) (k : Nat)
    (h1 : k ≠ KEY_RIGHT) (h2 : k ≠ KEY_LEFT) (h3 : k ≠ KEY_UP) :
    s.key_release k = s := by
  unfold InputService.key_release
  rw [if_neg h1, if_neg h2, if_neg h3]

end MoonLaner

/-! ## Helper lemmas: Beta -/

namespace Beta

/-- With fuel remaining, the Beta getter returns the stored thrust and burns
10 units. -/
lemma get_thrust_drain (l : Lander) (h : l.fuel ≠ 0) :
    l.get_thrust = (l.thrust, { l with fuel := l.fuel - 10 }) := by
  unfold Lander.get_thrust
  rw [if_neg h]

/-- With fuel exactly 0, the Beta getter returns `(0,0)` and changes
nothing. -/
lemma get_thrust_zero (l : Lander) (hz : l.fuel = 0) :
    l.get_thrust = (⟨0, 0⟩, l) := by
  unfold Lander.get_thrust
  rw [if_pos hz]

lemma set_thrust_fuel (l : Lander) (t : Vec2) : (l.set_thrust t).fuel = l.fuel := by
  unfold Lander.set_thrust
  split_ifs <;> rfl

lemma apply_input_fuel (k : Nat) (l : Lander) : (apply_input k l).fuel = l.fuel := by
  unfold apply_input
  exact set_thrust_fuel l _

/-- Nonnegative, 10-divisible fuel is preserved by the draining getter. -/
lemma get_thrust_inv (l : Lander) (h0 : 0 ≤ l.fuel) (h10 : (10 : Int) ∣ l.fuel) :
    0 ≤ (l.get_thrust).2.fuel ∧ (10 : Int) ∣ (l.get_thrust).2.fuel := by
  by_cases hz : l.fuel = 0
  · rw [get_thrust_zero l hz]
    exact ⟨h0, h10⟩
  · rw [get_thrust_drain l hz]
    have hge : (10 : Int) ≤ l.fuel :=
      Int.le_of_dvd (lt_of_le_of_ne h0 (Ne.symm hz)) h10
    exact ⟨by dsimp; omega, by dsimp; exact dvd_sub h10 (dvd_refl 10)⟩

/-- Nonnegative, 10-divisible fuel is preserved by `draw_lander`. -/
lemma draw_lander_inv (l : Lander) (h0 : 0 ≤ l.fuel) (h10 : (10 : Int) ∣ l.fuel) :
    0 ≤ (draw_lander l).fuel ∧ (10 : Int) ∣ (draw_lander l).fuel := by
  unfold draw_lander
  obtain ⟨a, b⟩ := get_thrust_inv l h0 h10
  split_ifs
  · exact ⟨a, b⟩
  · exact get_thrust_inv _ a b

/-- Nonnegative, 10-divisible fuel is preserved by every callback. -/
lemma bstep_inv (l : Lander) (e : BEvent) (h0 : 0 ≤ l.fuel) (h10 : (10 : Int) ∣ l.fuel) :
    0 ≤ (bstep l e).fuel ∧ (10 : Int) ∣ (bstep l e).fuel := by
  cases e with
  | key k =>
    show 0 ≤ (apply_input k l).fuel ∧ (10 : Int) ∣ (apply_input k l).fuel
    rw [apply_input_fuel]
    exact ⟨h0, h10⟩
  | tick => exact get_thrust_inv l h0 h10
  | draw => exact draw_lander_inv l h0 h10

/-- Nonnegative, 10-divisible fuel is preserved by every session. -/
lemma brun_inv (l : Lander) (es : List BEvent) (h0 : 0 ≤ l.fuel)
    (h10 : (10 : Int) ∣ l.fuel) :
    0 ≤ (brun l es).fuel ∧ (10 : Int) ∣ (brun l es).fuel := by
  induction es generalizing l with
  | nil => exact ⟨h0, h10⟩
  | cons e es ih =>
    obtain ⟨a, b⟩ := bstep_inv l e h0 h10
    exact ih (bstep l e) a b

/-- `draw_lander` changes nothing once fuel is exhausted. -/
lemma draw_lander_zero (l : Lander) (hz : l.fuel = 0) : draw_lander l = l := by
  unfold draw_lander
  rw [get_thrust_zero l hz]
  dsimp
  rw [get_thrust_zero l hz]

/-- Exhausted fuel stays exhausted across every callback. -/
lemma bstep_fuel_zero (l : Lander) (e : BEvent) (hz : l.fuel = 0) :
    (bstep l e).fuel = 0 := by
  cases e with
  | key k =>
    show (apply_input k l).fuel = 0
    rw [apply_input_fuel]
    exact hz
  | tick =>
    show ((l.get_thrust).2).fuel = 0
    rw [get_thrust_zero l hz]
    exact hz
  | draw =>
    show (draw_lander l).fuel = 0
    rw [draw_lander_zero l hz]
    exact hz

/-- Exhausted fuel stays exhausted across every session. -/
lemma brun_fuel_zero (l : Lander) (es : List BEvent) (hz : l.fuel = 0) :
    (brun l es).fuel = 0 := by
  induction es generalizing l with
  | nil => exact hz
  | cons e es ih => exact ih (bstep l e) (bstep_fuel_zero l e hz)

end Beta

/-! ## The claims -/

open MoonLaner

/-- Claim C1: in every reachable MoonLaner state fuel is nonnegative; in any
state with fuel exactly 0 (which covers every reachable one) the tick emits
the zero vector, changes nothing, and fuel stays exactly 0 across every
further event sequence.  Likewise for the Beta variant: reachable fuel is
nonnegative, and at fuel 0 the thrust getter returns the zero vector without
decrementing, and fuel stays 0 forever. -/
theorem C1_fuel_invariant (es : List Event) (bes : List Beta.BEvent) :
    0 ≤ (run GameState.init es).lander.fuel ∧
    (∀ (s : GameState) (more : List Event), s.lander.fuel = 0 →
      (on_update s).1 = ⟨0, 0⟩ ∧ (on_update s).2 = s ∧
      (run s more).lander.fuel = 0) ∧
    0 ≤ (Beta.brun Beta.Lander.init bes).fuel ∧
    (∀ (l : Beta.Lander) (bmore : List Beta.BEvent), l.fuel = 0 →
      (l.get_thrust).1 = ⟨0, 0⟩ ∧ (l.get_thrust).2 = l ∧
      (Beta.brun l bmore).fuel = 0) := by
  refine ⟨run_fuel_nonneg GameState.init es (by decide), ?_,
    (Beta.brun_inv Beta.Lander.init bes (by decide) (by decide)).1, ?_⟩
  · intro s more hz
    have h := on_update_zero s hz
    exact ⟨by rw [h], by rw [h], run_fuel_zero s more hz⟩
  · intro l bmore hz
    have h := Beta.get_thrust_zero l hz
    exact ⟨by rw [h], by rw [h], Beta.brun_fuel_zero l bmore hz⟩

/-- Witness for C1 at a concrete zero-fuel state with every direction held. -/
theorem C1_fuel_invariant_witness :
    (on_update ⟨⟨true, true, true⟩, ⟨⟨0, 0⟩, 0, 0, false⟩⟩).1 = ⟨0, 0⟩ ∧
    (run ⟨⟨true, true, true⟩, ⟨⟨0, 0⟩, 0, 0, false⟩⟩ [Event.tick]).lander.fuel = 0 ∧
    ((⟨⟨65, 0⟩, 0, 0, false⟩ : Beta.Lander).get_thrust).1 = ⟨0, 0⟩ ∧
    (Beta.brun ⟨⟨65, 0⟩, 0, 0, false⟩ [Beta.BEvent.tick]).fuel = 0 := by
  obtain ⟨-, hm, -, hb⟩ := C1_fuel_invariant [] []
  obtain ⟨a, -, c⟩ := hm ⟨⟨true, true, true⟩, ⟨⟨0, 0⟩, 0, 0, false⟩⟩ [Event.tick] rfl
  obtain ⟨d, -, f⟩ := hb ⟨⟨65, 0⟩, 0, 0, false⟩ [Beta.BEvent.tick] rfl
  exact ⟨a, c, d, f⟩

/-- Claim C3 counterexample: a Beta tick from the initial state (stored
thrust `(0,0)`, fuel 2000) emits the zero vector yet burns fuel — 2000 drops
to 1990, a decrement of 10 — refuting both "unchanged on every tick in which
the thrust vector is zero" and "decreases by exactly 1". -/
theorem C3_fuel_counterexample :
    (Beta.on_update Beta.Lander.init).1 = ⟨0, 0⟩ ∧
    (Beta.on_update Beta.Lander.init).2.fuel = 1990 ∧
    ¬ (Beta.on_update Beta.Lander.init).2.fuel = Beta.Lander.init.fuel ∧
    ¬ (Beta.on_update Beta.Lander.init).2.fuel = Beta.Lander.init.fuel - 1 := by
  decide

/-- Claim C3 (amended): in the MoonLaner variant a tick burns exactly one
fuel unit when it emits a nonzero thrust vector and none when it emits the
zero vector, and fuel is non-increasing across every event sequence; in the
Beta variant the per-tick decrement is 10, not 1, and is tied to fuel rather
than to the emitted vector — a tick with fuel nonzero burns exactly 10 even
when the emitted vector is zero, and only a tick at fuel exactly 0 changes
nothing; per-tick fuel is non-increasing in both variants. -/
theorem C3_fuel_per_tick_amended (s : GameState) (l : Beta.Lander) :
    ((on_update s).1 ≠ ⟨0, 0⟩ → (on_update s).2.lander.fuel = s.lander.fuel - 1) ∧
    ((on_update s).1 = ⟨0, 0⟩ → (on_update s).2.lander.fuel = s.lander.fuel) ∧
    (on_update s).2.lander.fuel ≤ s.lander.fuel ∧
    (∀ es : List Event, (run s es).lander.fuel ≤ s.lander.fuel) ∧
    (l.fuel ≠ 0 → (Beta.on_update l).2.fuel = l.fuel - 10) ∧
    (l.fuel = 0 → (Beta.on_update l).2 = l) ∧
    (Beta.on_update l).2.fuel ≤ l.fuel := by
  have hBle : (Beta.on_update l).2.fuel ≤ l.fuel := by
    by_cases hz : l.fuel = 0
    · show ((l.get_thrust).2).fuel ≤ l.fuel
      rw [Beta.get_thrust_zero l hz]
    · show ((l.get_thrust).2).fuel ≤ l.fuel
      rw [Beta.get_thrust_drain l hz]
      dsimp
      omega
  have hBdrain : l.fuel ≠ 0 → (Beta.on_update l).2.fuel = l.fuel - 10 := by
    intro h
    show ((l.get_thrust).2).fuel = l.fuel - 10
    rw [Beta.get_thrust_drain l h]
  have hBzero : l.fuel = 0 → (Beta.on_update l).2 = l := by
    intro h
    show (l.get_thrust).2 = l
    rw [Beta.get_thrust_zero l h]
  rcases on_update_cases s with ⟨hne, hf⟩ | ⟨hz, hs⟩
  · exact ⟨fun _ => hf, fun h => absurd h hne, on_update_fuel_le s, run_fuel_le s,
      hBdrain, hBzero, hBle⟩
  · exact ⟨fun h => absurd hz h, fun _ => by rw [hs], on_update_fuel_le s, run_fuel_le s,
      hBdrain, hBzero, hBle⟩

/-- Witness for C3 (amended): a MoonLaner tick with RIGHT held and full fuel
drops fuel from 1000 to 999; a Beta tick from the fresh lander drops fuel
from 2000 to 1990 despite emitting the zero vector; a Beta tick at fuel 0
changes nothing. -/
theorem C3_fuel_per_tick_amended_witness :
    (on_update ⟨⟨true, false, false⟩, Lander.init⟩).2.lander.fuel = 999 ∧
    (Beta.on_update Beta.Lander.init).2.fuel = 1990 ∧
    (Beta.on_update ⟨⟨65, 0⟩, 0, 0, false⟩).2 = ⟨⟨65, 0⟩, 0, 0, false⟩ := by
  have hM := (C3_fuel_per_tick_amended ⟨⟨true, false, false⟩, Lander.init⟩
    Beta.Lander.init).1 (by decide)
  have hB := (C3_fuel_per_tick_amended ⟨⟨true, false, false⟩, Lander.init⟩
    Beta.Lander.init).2.2.2.2.1 (by decide)
  have hZ := (C3_fuel_per_tick_amended ⟨⟨true, false, false⟩, Lander.init⟩
    (⟨⟨65, 0⟩, 0, 0, false⟩ : Beta.Lander)).2.2.2.2.2.1 rfl
  refine ⟨?_, ?_, hZ⟩
  · rw [hM]
    decide
  · rw [hB]
    decide

/-- Claim C4: with fuel remaining, the MoonLaner tick emits the fixed
magnitude-65 axis vector picked by the fixed priority right, left, up over
the held flags; with both left and right held it deterministically emits
`(65, 0)`. -/
theorem C4_thrust_priority (s : GameState) (h : 0 < s.lander.fuel) :
    (on_update s).1 =
      (if s.input.right then (⟨65, 0⟩ : Vec2)
       else if s.input.left then ⟨-65, 0⟩
       else if s.input.up then ⟨0, 65⟩
       else ⟨0, 0⟩) ∧
    (s.input.right = true → s.input.left = true → (on_update s).1 = ⟨65, 0⟩) := by
  constructor
  · unfold on_update
    split_ifs with h1 h2 h3 <;> simp_all [PLAYER_MOVE_FORCE]
  · intro hr hl
    show (on_update s).1 = ⟨65, 0⟩
    unfold on_update
    rw [if_pos ⟨hr, h⟩]
    rfl

/-- Witness for C4: both left and right held with full fuel yields `(65, 0)`. -/
theorem C4_thrust_priority_witness :
    (on_update ⟨⟨true, true, false⟩, Lander.init⟩).1 = ⟨65, 0⟩ :=
  (C4_thrust_priority ⟨⟨true, true, false⟩, Lander.init⟩ (by decide)).2 rfl rfl

/-- Claim C5: with fuel exhausted the per-tick thrust computation returns the
zero vector for every held-direction input: the MoonLaner tick, the MoonLaner
getter, and the Beta getter all yield `(0, 0)`. -/
theorem C5_zero_fuel_zero_thrust (s : GameState) (l : Lander) (lb : Beta.Lander)
    (hs : s.lander.fuel = 0) (hl : l.fuel = 0) (hb : lb.fuel = 0) :
    (on_update s).1 = ⟨0, 0⟩ ∧ l.get_thrust = ⟨0, 0⟩ ∧ (lb.get_thrust).1 = ⟨0, 0⟩ := by
  refine ⟨by rw [on_update_zero s hs], ?_, by rw [Beta.get_thrust_zero lb hb]⟩
  unfold Lander.get_thrust
  rw [if_pos hl]

/-- Witness for C5 at concrete zero-fuel landers whose stored thrust is the
nonzero `(65, 0)` and with every direction held. -/
theorem C5_zero_fuel_zero_thrust_witness :
    (on_update ⟨⟨true, true, true⟩, ⟨⟨65, 0⟩, 0, 0, false⟩⟩).1 = ⟨0, 0⟩ ∧
    Lander.get_thrust ⟨⟨65, 0⟩, 0, 0, false⟩ = ⟨0, 0⟩ ∧
    ((⟨⟨65, 0⟩, 0, 0, false⟩ : Beta.Lander).get_thrust).1 = ⟨0, 0⟩ :=
  C5_zero_fuel_zero_thrust ⟨⟨true, true, true⟩, ⟨⟨65, 0⟩, 0, 0, false⟩⟩
    ⟨⟨65, 0⟩, 0, 0, false⟩ ⟨⟨65, 0⟩, 0, 0, false⟩ rfl rfl rfl

/-- Claim C2 counterexample: in the Beta variant, nine left-key presses are a
reachable path to rotation 45, and the tenth horizontal-thrust increment
takes rotation to 50 — the rotation feedback in `set_thrust` is unclamped,
so rotation does exceed 45 and the further increment at 45 yields 50, not
45. -/
theorem C2_rotation_counterexample :
    (Beta.brun Beta.Lander.init (List.replicate 9 (Beta.BEvent.key KEY_LEFT))).rotation
      = 45 ∧
    (Beta.brun Beta.Lander.init (List.replicate 10 (Beta.BEvent.key KEY_LEFT))).rotation
      = 50 ∧
    ¬ (Beta.brun Beta.Lander.init
        (List.replicate 10 (Beta.BEvent.key KEY_LEFT))).rotation ≤ 45 := by
  decide

/-- Claim C2 (amended): `set_rotation` clamps rotation to at most 45, but the
horizontal-thrust rotation feedback in `set_thrust` — the path the Beta key
handler actually uses — adds exactly 5 with no clamp, so it can push rotation
past 45; in the MoonLaner variant the handlers never write rotation, which
stays at its initial 0 (hence at most 45) in every reachable state. -/
theorem C2_rotation_amended :
    (∀ (l : Beta.Lander) (r : Int), (l.set_rotation r).rotation ≤ 45) ∧
    (∀ (l : Beta.Lander) (t : Vec2), t.x ≠ 0 →
      (l.set_thrust t).rotation = l.rotation + 5) ∧
    (∀ es : List Event, (run GameState.init es).lander.rotation ≤ 45) := by
  refine ⟨?_, ?_, ?_⟩
  · intro l r
    unfold Beta.Lander.set_rotation
    dsimp
    split_ifs with h
    · omega
    · omega
  · intro l t ht
    unfold Beta.Lander.set_thrust
    split_ifs with h1 h2
    · rfl
    · rfl
    · exact absurd (by omega) ht
  · intro es
    rw [(run_lander_frame GameState.init es).1]
    decide

/-- Witness for C2 (amended): the unclamped feedback at rotation 45 yields
50. -/
theorem C2_rotation_amended_witness :
    ((⟨⟨0, 0⟩, 45, 2000, false⟩ : Beta.Lander).set_thrust ⟨-65, 0⟩).rotation = 50 := by
  have h := C2_rotation_amended.2.1 ⟨⟨0, 0⟩, 45, 2000, false⟩ ⟨-65, 0⟩ (by decide)
  rw [h]
  decide

/-- Claim C6 counterexample: in MoonLaner, with RIGHT held and full fuel, the
tick emits the horizontal vector `(65, 0)` yet rotation stays 0 instead of
increasing by 5 — the update loop never invokes the rotation feedback. -/
theorem C6_rotation_counterexample :
    (on_update (stepEvent GameState.init (Event.keyPress KEY_RIGHT))).1 = ⟨65, 0⟩ ∧
    (on_update (stepEvent GameState.init (Event.keyPress KEY_RIGHT))).1.x ≠ 0 ∧
    (on_update (stepEvent GameState.init (Event.keyPress KEY_RIGHT))).2.lander.rotation
      = 0 ∧
    ¬ (on_update (stepEvent GameState.init (Event.keyPress KEY_RIGHT))).2.lander.rotation
        = (stepEvent GameState.init (Event.keyPress KEY_RIGHT)).lander.rotation + 5 := by
  decide

/-- Claim C6 (amended): `Lander.set_thrust` does add exactly 5 to rotation
whenever its argument has a nonzero horizontal component — four alternating
left/right calls take rotation from 0 to 20 — but the MoonLaner update loop
never calls it, so a tick leaves rotation unchanged even when the emitted
thrust vector is horizontal. -/
theorem C6_rotation_amended :
    (∀ (l : Lander) (t : Vec2), t.x ≠ 0 → (l.set_thrust t).rotation = l.rotation + 5) ∧
    ((((Lander.init.set_thrust ⟨-65, 0⟩).set_thrust ⟨65, 0⟩).set_thrust
        ⟨-65, 0⟩).set_thrust ⟨65, 0⟩).rotation = 20 ∧
    (∀ s : GameState, (on_update s).2.lander.rotation = s.lander.rotation) := by
  refine ⟨?_, by decide, fun s => (on_update_shape s).2.2.1⟩
  intro l t ht
  unfold Lander.set_thrust
  split_ifs with h1 h2
  · rfl
  · rfl
  · exact absurd (by omega) ht

/-- Witness for C6 (amended): one horizontal `set_thrust` from the initial
lander raises rotation from 0 to 5. -/
theorem C6_rotation_amended_witness :
    (Lander.init.set_thrust ⟨65, 0⟩).rotation = 5 := by
  have h := C6_rotation_amended.1 Lander.init ⟨65, 0⟩ (by decide)
  rw [h]
  decide

/-- Claim C7: after any sequence of raw key events, each held-direction flag
equals the net press state of its key code (true iff the last event for that
code was a key-down); a repeated key-down for an already-held direction is
idempotent, and releasing a direction whose flag is not held leaves the state
unchanged. -/
theorem C7_input_net_state :
    (∀ es : List (Bool × Nat),
      (es.foldl applyKeyEvent InputService.init).right = netPressed KEY_RIGHT es ∧
      (es.foldl applyKeyEvent InputService.init).left = netPressed KEY_LEFT es ∧
      (es.foldl applyKeyEvent InputService.init).up = netPressed KEY_UP es) ∧
    (∀ (s : InputService) (k : Nat), (s.key_input k).key_input k = s.key_input k) ∧
    (∀ (s : InputService) (k : Nat), flagOf s k = false → s.key_release k = s) := by
  refine ⟨?_, ?_, ?_⟩
  · intro es
    exact ⟨foldlKeys_right es InputService.init, foldlKeys_left es InputService.init,
      foldlKeys_up es InputService.init⟩
  · intro s k
    unfold InputService.key_input
    split_ifs <;> rfl
  · intro s k hf
    cases s with
    | mk r l u =>
      unfold flagOf at hf
      unfold InputService.key_release
      split_ifs at hf ⊢ <;> simp_all

/-- Witness for C7: releasing RIGHT when it is not held is a no-op. -/
theorem C7_input_net_state_witness :
    InputService.init.key_release KEY_RIGHT = InputService.init :=
  C7_input_net_state.2.2 InputService.init KEY_RIGHT (by decide)

/-- Claim C8 counterexample: in the Beta variant, pressing an unrecognized
key (code 32, space) while the stored thrust is `(65, 0)` resets the thrust
to `(0, 0)` — the flight state is changed, not left unchanged. -/
theorem C8_unrecognized_key_counterexample :
    (Beta.apply_input KEY_RIGHT Beta.Lander.init).thrust = ⟨65, 0⟩ ∧
    (Beta.apply_input 32 (Beta.apply_input KEY_RIGHT Beta.Lander.init)).thrust
      = ⟨0, 0⟩ ∧
    Beta.apply_input 32 (Beta.apply_input KEY_RIGHT Beta.Lander.init) ≠
      Beta.apply_input KEY_RIGHT Beta.Lander.init := by
  decide

/-- Claim C8 (amended): in MoonLaner, key-down and key-up events for an
unrecognized key leave the entire state unchanged and raise no error; in the
Beta variant, `apply_input` on an unrecognized key instead calls
`set_thrust((0,0))`, zeroing the stored thrust vector while leaving fuel,
rotation and the crash flag unchanged (still no error). -/
theorem C8_unrecognized_key_amended :
    (∀ (s : GameState) (k : Nat), k ≠ KEY_RIGHT → k ≠ KEY_LEFT → k ≠ KEY_UP →
      stepEvent s (Event.keyPress k) = s ∧ stepEvent s (Event.keyRelease k) = s) ∧
    (∀ (l : Beta.Lander) (k : Nat), k ≠ KEY_RIGHT → k ≠ KEY_LEFT → k ≠ KEY_UP →
      Beta.apply_input k l = { l with thrust := ⟨0, 0⟩ }) := by
  constructor
  · intro s k h1 h2 h3
    constructor
    · show ({ s with input := s.input.key_input k } : GameState) = s
      rw [key_input_unrecognized s.input k h1 h2 h3]
    · show ({ s with input := s.input.key_release k } : GameState) = s
      rw [key_release_unrecognized s.input k h1 h2 h3]
  · intro l k h1 h2 h3
    unfold Beta.apply_input
    rw [if_neg h2, if_neg h1, if_neg h3]
    unfold Beta.Lander.set_thrust
    rw [if_neg (by decide), if_neg (by decide)]

/-- Witness for C8 (amended): space (code 32) on the initial Beta lander
zeroes the thrust field and nothing else. -/
theorem C8_unrecognized_key_amended_witness :
    Beta.apply_input 32 Beta.Lander.init
      = { Beta.Lander.init with thrust := ⟨0, 0⟩ } :=
  C8_unrecognized_key_amended.2 Beta.Lander.init 32 (by decide) (by decide) (by decide)

/-- Claim C9: the Beta `get_thrust` is not a pure accessor — any call with
fuel nonzero returns the stored thrust and decrements fuel by 10 as a side
effect, and `draw_lander` performs one or two such draining calls per frame;
reachable fuel (from the initial 2000) stays nonnegative and a multiple of
10, which is the only reason the `fuel == 0` equality guard ever fires: from
any fuel value not divisible by 10, `n` getter calls yield exactly
`fuel - 10 n`, decreasing past zero without bound. -/
theorem C9_beta_getter_side_effect :
    Beta.Lander.init.fuel = 2000 ∧
    (∀ l : Beta.Lander, l.fuel ≠ 0 →
      (l.get_thrust).1 = l.thrust ∧ (l.get_thrust).2.fuel = l.fuel - 10) ∧
    (∀ l : Beta.Lander, l.fuel ≠ 0 →
      (Beta.draw_lander l).fuel = l.fuel - 10 ∨
      (Beta.draw_lander l).fuel = l.fuel - 20) ∧
    (∀ es : List Beta.BEvent,
      0 ≤ (Beta.brun Beta.Lander.init es).fuel ∧
      (10 : Int) ∣ (Beta.brun Beta.Lander.init es).fuel) ∧
    (∀ (l : Beta.Lander) (n : Nat), ¬ (10 : Int) ∣ l.fuel →
      (Beta.drainN l n).fuel = l.fuel - 10 * n) := by
  refine ⟨rfl, ?_, ?_, ?_, ?_⟩
  · intro l h
    rw [Beta.get_thrust_drain l h]
    exact ⟨rfl, rfl⟩
  · intro l h
    unfold Beta.draw_lander
    rw [Beta.get_thrust_drain l h]
    dsimp
    split_ifs with hx
    · exact Or.inl rfl
    · by_cases hz : l.fuel - 10 = 0
      · rw [Beta.get_thrust_zero _ hz]
        exact Or.inl rfl
      · rw [Beta.get_thrust_drain _ hz]
        dsimp
        right
        omega
  · intro es
    exact Beta.brun_inv Beta.Lander.init es (by decide) (by decide)
  · intro l n hd
    induction n with
    | zero => simp [Beta.drainN]
    | succ n ih =>
      have hne : (Beta.drainN l n).fuel ≠ 0 := by
        rw [ih]
        intro h0
        exact hd ⟨(n : Int), by omega⟩
      simp only [Beta.drainN]
      rw [Beta.get_thrust_drain _ hne]
      dsimp
      rw [ih]
      push_cast
      ring

/-- Witness for C9: one getter call on the fresh Beta lander leaves fuel
1990; one rendered frame leaves 1990 or 1980; from the 10-indivisible fuel
value 5, two getter calls drive fuel to -15, below zero. -/
theorem C9_beta_getter_side_effect_witness :
    ((Beta.Lander.init.get_thrust).2.fuel = 1990) ∧
    ((Beta.draw_lander Beta.Lander.init).fuel = 1990 ∨
      (Beta.draw_lander Beta.Lander.init).fuel = 1980) ∧
    (Beta.drainN ⟨⟨0, 0⟩, 0, 5, false⟩ 2).fuel = -15 := by
  refine ⟨?_, ?_, ?_⟩
  · have h := (C9_beta_getter_side_effect.2.1 Beta.Lander.init (by decide)).2
    rw [h]
    decide
  · have h := C9_beta_getter_side_effect.2.2.1 Beta.Lander.init (by decide)
    rcases h with h | h
    · left
      rw [h]
      decide
    · right
      rw [h]
      decide
  · have h := C9_beta_getter_side_effect.2.2.2.2 ⟨⟨0, 0⟩, 0, 5, false⟩ 2 (by decide)
    rw [h]
    decide

/-- Claim C10: in MoonLaner no reachable code path writes `_rotation`,
`_has_crashed` or `_thrust` after construction: after every sequence of key
events, ticks and draws, rotation is 0 (so `get_rotation` returns 0), the
crash flag is still false and the stored thrust is still `(0, 0)` — only fuel
and the held-direction flags ever change. -/
theorem C10_moonlaner_frame (es : List Event) :
    (run GameState.init es).lander.rotation = 0 ∧
    (run GameState.init es).lander.get_rotation = 0 ∧
    (run GameState.init es).lander.hasCrashed = false ∧
    (run GameState.init es).lander.thrust = ⟨0, 0⟩ := by
  obtain ⟨hr, hc, ht⟩ := run_lander_frame GameState.init es
  exact ⟨hr.trans rfl, hr.trans rfl, hc.trans rfl, ht.trans rfl⟩

end LunarLander
